import Mathlib

/-!
# Verification of the gsheet-pandas connection layer

A shallow embedding of the `DriveConnection` operations of gsheet-pandas
(`gsheet_pandas/adapter/connection.py`, with the historical revision
`gsheet-pandas/connection.py` and the asyncio variant
`gsheet_pandas/asyncio/adapter/connection.py` embedded where they differ),
together with proofs about the read/write reconciliation logic, the
error-handling flow, pagination, and sheet creation.

Python scalar cell values are modelled by the inductive `PyVal`; floats and
`Decimal` both carry a rational (floating-point rounding is abstracted away).
The remote spreadsheet service is external to the repository and is modelled
from the spec where an operation's behaviour depends on it.
-/

namespace GSheet

/-- A Python scalar value as it occurs in a DataFrame cell or column label.
`vDate` covers `Timestamp` / `datetime.datetime` / `datetime.date` and carries
its `str()` rendering; `vFloat` and `vDecimal` carry a rational, abstracting
floating-point rounding. -/
inductive PyVal where
  | vStr (s : String)
  | vInt (n : Int)
  | vFloat (q : ℚ)
  | vBool (b : Bool)
  | vNone
  | vDate (r : String)
  | vDecimal (q : ℚ)
deriving DecidableEq, Repr

/-- Python's `str()` coercion on a cell value. -/
def pyStr : PyVal → String
  | .vStr s => s
  | .vInt n => toString n
  | .vFloat q => toString q
  | .vBool b => if b then "True" else "False"
  | .vNone => "None"
  | .vDate r => r
  | .vDecimal q => toString q

/-- A pandas DataFrame: an ordered sequence of column labels plus an ordered
sequence of rows. Column labels are arbitrary Python values (pandas permits
non-string labels; a positional `RangeIndex` yields integer labels). -/
structure Frame where
  columns : List PyVal
  rows : List (List PyVal)
deriving DecidableEq, Repr

/-- A DataFrame is rectangular: every row has exactly one cell per column. -/
def Frame.Rect (df : Frame) : Prop := ∀ r ∈ df.rows, r.length = df.columns.length

/-! ## The Sheet Reader (`DriveConnection.download`)

`download` receives from the remote `values().get` call a ragged grid of
string cells (`values`) and a `header` argument.  The embedding below mirrors
`gsheet_pandas/adapter/connection.py`, lines 110-144, statement by statement:

* `if not values: raise Exception('Empty data')`;
* `header is None` → `pd.DataFrame(values)`: positional integer column labels
  `0 .. w-1` where `w` is the widest row, ragged rows padded with `NaN`;
* otherwise `columns = values[header]` (an `IndexError` when out of range),
  `data = values[header+1:]`; empty `data` → empty frame carrying `columns`;
* `pd.DataFrame(data)` has `max` row width many columns; when that exceeds
  `len(columns)` the header is extended with `Unknown {i}` names; the final
  `df.columns = columns` assignment raises pandas' length-mismatch
  `ValueError` when the header is longer than the widest data row. -/

/-- Width of the widest row of a ragged grid (`len(pd.DataFrame(g).columns)`). -/
def maxRowLen (rows : List (List String)) : Nat :=
  rows.foldr (fun r m => max r.length m) 0

/-- The synthesized header names `"Unknown 0"`, `"Unknown 1"`, …
(`[f'Unknown {i}' for i in range(k)]`). -/
def unknownNames (k : Nat) : List PyVal :=
  (List.range k).map (fun i => .vStr ("Unknown " ++ toString i))

/-- A grid row as a DataFrame row of width `w`: string cells, then `NaN`
padding (`pd.DataFrame` pads ragged rows with `NaN`). -/
def padRow (w : Nat) (r : List String) : List PyVal :=
  r.map .vStr ++ List.replicate (w - r.length) .vNone

/-- `DriveConnection.download` after the remote call: the grid-to-DataFrame
reconciliation of `gsheet_pandas/adapter/connection.py`, lines 126-144. -/
def download (values : List (List String)) (header : Option Nat) :
    Except String Frame :=
  if values.isEmpty then .error "Empty data"
  else
    match header with
    | none =>
        .ok ⟨(List.range (maxRowLen values)).map .vInt,
             values.map (padRow (maxRowLen values))⟩
    | some h =>
        if hh : h < values.length then
          let columns := values.get ⟨h, hh⟩
          let data := values.drop (h + 1)
          if data.isEmpty then .ok ⟨columns.map .vStr, []⟩
          else
            let w := maxRowLen data
            if columns.length < w then
              .ok ⟨columns.map .vStr ++ unknownNames (w - columns.length),
                   data.map (padRow w)⟩
            else if columns.length = w then
              .ok ⟨columns.map .vStr, data.map (padRow w)⟩
            else .error "Length mismatch"
        else .error "list index out of range"

/-! ### Basic facts about the reader -/

theorem maxRowLen_cons (r : List String) (rs : List (List String)) :
    maxRowLen (r :: rs) = max r.length (maxRowLen rs) := rfl

/-- A nonempty grid whose rows all have width `n` has widest row `n`. -/
theorem maxRowLen_const {rows : List (List String)} {n : Nat}
    (hne : rows ≠ []) (hlen : ∀ r ∈ rows, r.length = n) :
    maxRowLen rows = n := by
  induction rows with
  | nil => cases hne rfl
  | cons r rs ih =>
      rcases Decidable.em (rs = []) with h | h
      · subst h
        simp [maxRowLen, hlen r (by simp)]
      · have := ih h (fun x hx => hlen x (by simp [hx]))
        simp [maxRowLen_cons, this, hlen r (by simp)]

/-- A row already of full width is not padded. -/
theorem padRow_full {r : List String} {w : Nat} (h : r.length = w) :
    padRow w r = r.map .vStr := by
  simp [padRow, h]

/-- Every row's width is bounded by the grid's widest row. -/
theorem length_le_maxRowLen {rows : List (List String)} {r : List String}
    (hr : r ∈ rows) : r.length ≤ maxRowLen rows := by
  induction rows with
  | nil => cases hr
  | cons x xs ih =>
      rcases List.mem_cons.mp hr with h | h
      · subst h; simp [maxRowLen_cons]
      · exact le_trans (ih h) (by simp [maxRowLen_cons])

/-- C3. Downloading a fully empty remote grid fails with the
`"Empty data"` error whatever the `header` argument is; no Table is
returned for an empty grid. -/
theorem download_empty_grid (header : Option Nat) :
    download [] header = .error "Empty data" := by
  cases header <;> simp [download]

/-- C7. On a non-empty grid, `download` with `header = None` returns the raw
grid as a headerless DataFrame: one data row per grid row (same row count)
and positional integer column labels `0 .. w-1`; and with a header row
present but zero data rows after it, `download` returns an empty DataFrame
carrying the header's names rather than raising the empty-data error —
that error is reserved for a fully empty grid. -/
theorem download_headerless (values : List (List String)) (hne : values ≠ []) :
    download values none =
      .ok ⟨(List.range (maxRowLen values)).map .vInt,
           values.map (padRow (maxRowLen values))⟩ ∧
    (values.map (padRow (maxRowLen values))).length = values.length ∧
    (∀ h, h < values.length → values.length ≤ h + 1 →
      download values (some h) = .ok ⟨(values.getD h []).map .vStr, []⟩) := by
  have hemp : values.isEmpty = false := by
    cases values with
    | nil => cases hne rfl
    | cons x xs => rfl
  refine ⟨by simp [download, hemp], by simp, ?_⟩
  intro h hlt hge
  have hdrop : values.drop (h + 1) = [] := List.drop_eq_nil_of_le hge
  have hget : values.get ⟨h, hlt⟩ = values.getD h [] := by
    simp [List.getD_eq_getElem?_getD, List.getElem?_eq_getElem hlt]
  simp [download, hemp, hlt, hdrop, hget]

/-- C7 witness: a two-row grid read headerless keeps both rows with
positional columns, and a header-only grid read with `header = 0` yields the
empty DataFrame carrying the header names. -/
theorem download_headerless_example :
    download [["a", "b"], ["c", "d"]] none =
      .ok ⟨[.vInt 0, .vInt 1],
           [[.vStr "a", .vStr "b"], [.vStr "c", .vStr "d"]]⟩ ∧
    download [["A", "B"]] (some 0) = .ok ⟨[.vStr "A", .vStr "B"], []⟩ := by
  have h1 := download_headerless [["a", "b"], ["c", "d"]] (by decide)
  have h2 := download_headerless [["A", "B"]] (by decide)
  refine ⟨?_, ?_⟩
  · have := h1.1
    simpa [maxRowLen, padRow, List.range] using this
  · have := h2.2.2 0 (by decide) (by decide)
    simpa using this

/-- C4. When some data row after the header row is wider than the header,
the downloaded DataFrame's column labels are the header's names followed by
the synthesized `"Unknown 0"`, `"Unknown 1"`, … names in order, and their
total count equals the widest data row's width. -/
theorem download_wider_rows (values : List (List String)) (h : Nat)
    (hh : h < values.length)
    (hwide : ∃ r ∈ values.drop (h + 1), (values.getD h []).length < r.length) :
    download values (some h) =
      .ok ⟨(values.getD h []).map .vStr ++
             unknownNames
               (maxRowLen (values.drop (h + 1)) - (values.getD h []).length),
           (values.drop (h + 1)).map
             (padRow (maxRowLen (values.drop (h + 1))))⟩ ∧
    ((values.getD h []).map PyVal.vStr ++
       unknownNames
         (maxRowLen (values.drop (h + 1)) - (values.getD h []).length)).length
      = maxRowLen (values.drop (h + 1)) := by
  obtain ⟨r, hr, hrlen⟩ := hwide
  have hemp : values.isEmpty = false := by
    cases values with
    | nil => simp at hh
    | cons x xs => rfl
  have hw : (values.getD h []).length < maxRowLen (values.drop (h + 1)) :=
    lt_of_lt_of_le hrlen (length_le_maxRowLen hr)
  have hdne : (values.drop (h + 1)).isEmpty = false := by
    cases hd : values.drop (h + 1) with
    | nil => rw [hd] at hr; cases hr
    | cons x xs => rfl
  have hget : values.get ⟨h, hh⟩ = values.getD h [] := by
    simp [List.getD_eq_getElem?_getD, List.getElem?_eq_getElem hh]
  constructor
  · simp [download, hemp, hh, hdne, hget, hw]
    intro hle
    have hw2 : (values.get ⟨h, hh⟩).length <
        maxRowLen (values.drop (h + 1)) := by
      rw [hget]; exact hw
    simp only [List.get_eq_getElem] at hw2
    exact absurd hle (by omega)
  · simp only [List.length_append, List.length_map, unknownNames,
      List.length_range]
    omega

/-! ## Folder listing (`DriveConnection.get_all_files_in_folder`)

`get_all_files_in_folder` loops over the paginated drive `files().list`
call: `files.extend(response.get('files', []))`, then
`page_token = response.get('nextPageToken', None)`, breaking when the token
is `None` (`gsheet_pandas/adapter/connection.py`, lines 89-108). The remote
service is modelled from the spec: it emits its pages in a fixed order and
returns a next-page cursor exactly while further pages remain; the opaque
cursor is modelled as the list of pages still to be served. -/

/-- A drive file entry as selected by `fields="files(id, name)"`. -/
structure FileEntry where
  id : String
  name : String
deriving DecidableEq, Repr

/-- Modelled from the spec: one `files().list` page fetch. The remote returns
the current page's entries and a cursor (the remaining pages) exactly when
more pages follow. -/
def listFilesCall (pages : List (List FileEntry)) :
    List FileEntry × Option (List (List FileEntry)) :=
  match pages with
  | [] => ([], none)
  | p :: rest => (p, if rest.isEmpty then none else some rest)

/-- The `while True` accumulation loop of `get_all_files_in_folder`:
extend the accumulator with the page's entries and continue while the
service supplies a cursor (`getAllFilesLoop_step` below shows each unfolding
is exactly one `listFilesCall` round). -/
def getAllFilesLoop : List (List FileEntry) → List FileEntry → List FileEntry
  | [], acc => acc
  | p :: rest, acc =>
      if rest.isEmpty then acc ++ p
      else getAllFilesLoop rest (acc ++ p)

/-- Each iteration of the loop is one `listFilesCall` round: extend with the
page's files, stop when no cursor comes back, otherwise continue from the
cursor. -/
theorem getAllFilesLoop_step (pages : List (List FileEntry))
    (acc : List FileEntry) :
    getAllFilesLoop pages acc =
      match listFilesCall pages with
      | (fs, none) => acc ++ fs
      | (fs, some rest) => getAllFilesLoop rest (acc ++ fs) := by
  cases pages with
  | nil => simp [getAllFilesLoop, listFilesCall]
  | cons p ps =>
      cases hps : ps.isEmpty with
      | true =>
          have : ps = [] := List.isEmpty_iff.mp hps
          subst this
          simp [getAllFilesLoop, listFilesCall]
      | false => simp [getAllFilesLoop, listFilesCall, hps]

/-- `DriveConnection.get_all_files_in_folder`, starting from `files = []`. -/
def get_all_files_in_folder (pages : List (List FileEntry)) : List FileEntry :=
  getAllFilesLoop pages []

theorem getAllFilesLoop_eq (pages : List (List FileEntry))
    (acc : List FileEntry) :
    getAllFilesLoop pages acc = acc ++ pages.flatten := by
  induction pages generalizing acc with
  | nil => simp [getAllFilesLoop]
  | cons p ps ih =>
      cases hps : ps.isEmpty with
      | true =>
          have : ps = [] := List.isEmpty_iff.mp hps
          subst this
          simp [getAllFilesLoop]
      | false =>
          simp only [getAllFilesLoop, hps, if_neg]
          rw [ih]
          simp

/-- C6. The pagination loop follows the service's cursor to the end and
returns exactly the concatenation of every page's entries, in service order:
nothing is dropped and nothing is duplicated at a page boundary. -/
theorem get_all_files_concat (pages : List (List FileEntry)) :
    get_all_files_in_folder pages = pages.flatten := by
  simpa using getAllFilesLoop_eq pages []

/-! ## The Sheet Writer (`DriveConnection.upload`)

`upload` first runs `_fix_dtypes` (`fillna('')`, a date/time `map`, a
`Decimal` `map`), then serializes with `df.T.reset_index().T.values.tolist()`
— transpose, move the column labels in as the first column, transpose back —
or, when `drop_columns` is set, plain `df.values.tolist()`
(`gsheet_pandas/adapter/connection.py`, lines 45-49 and 162-166). -/

/-- `df.fillna('')` on one cell: a null/missing value becomes `''`. -/
def fillnaCell : PyVal → PyVal
  | .vNone => .vStr ""
  | v => v

/-- The first `df.map` of `_fix_dtypes`: `Timestamp` / `datetime` / `date`
cells become their `str()` rendering. -/
def dateCell : PyVal → PyVal
  | .vDate r => .vStr r
  | v => v

/-- The second `df.map` of `_fix_dtypes`: `Decimal` cells become floats. -/
def decimalCell : PyVal → PyVal
  | .vDecimal q => .vFloat q
  | v => v

/-- An element-wise cell transform (pandas `fillna` / `map`): produces a new
frame, column labels untouched. -/
def mapCells (g : PyVal → PyVal) (df : Frame) : Frame :=
  ⟨df.columns, df.rows.map (List.map g)⟩

/-- `_fix_dtypes`: the three transforms in source order. -/
def fix_dtypes (df : Frame) : Frame :=
  mapCells decimalCell (mapCells dateCell (mapCells fillnaCell df))

/-- The three cell transforms composed, in the order `_fix_dtypes` applies
them to each cell. -/
def fixCell (v : PyVal) : PyVal := decimalCell (dateCell (fillnaCell v))

/-- Transposition of a rectangular list-of-lists. -/
def transposeRect {α : Type} : List (List α) → List (List α)
  | [] => []
  | [r] => r.map (fun x => [x])
  | r :: rs => List.zipWith (fun x xs => x :: xs) r (transposeRect rs)

/-- `df.T.values` as the list of the frame's columns: entry `i` is column
`i` read top to bottom (`getD`'s default is never reached on a rectangular
frame). -/
def colsOf (df : Frame) : List (List PyVal) :=
  (List.range df.columns.length).map
    (fun i => df.rows.map (fun r => r.getD i .vNone))

/-- `df.T.reset_index().T.values.tolist()`: transpose, prepend the column
labels as the index column, transpose back. -/
def uploadValues (df : Frame) : List (List PyVal) :=
  transposeRect (List.zipWith (fun c col => c :: col) df.columns (colsOf df))

/-- The grid `DriveConnection.upload` sends as `body.values`: `_fix_dtypes`
first, then the header-carrying serialization — replaced by the bare
`df.values.tolist()` rows when `drop_columns` is set. -/
def uploadGrid (df : Frame) (dropColumns : Bool) : List (List PyVal) :=
  let fixed := fix_dtypes df
  let values := uploadValues fixed
  if dropColumns then fixed.rows else values

/-! ### The serialization really is "header row, then the records" -/

theorem getD_succ_eq_tail_getD (r : List PyVal) (i : Nat) :
    r.getD (i + 1) .vNone = r.tail.getD i .vNone := by
  cases r <;> simp [List.getD]

theorem transposeRect_singleton {α : Type} (r : List α) :
    transposeRect [r] = r.map (fun x => [x]) := rfl

/-- With a second row present, `transposeRect` peels the first row off with
`zipWith` cons. -/
theorem transposeRect_cons {α : Type} (a : List α) (L : List (List α))
    (hL : L ≠ []) :
    transposeRect (a :: L) =
      List.zipWith (fun x xs => x :: xs) a (transposeRect L) := by
  cases L with
  | nil => cases hL rfl
  | cons b bs => rfl

/-- Transposing the list of a grid's `n+1` columns recovers the grid, for a
grid whose rows all have width `n+1`. -/
theorem transposeRect_cols (n : Nat) (G : List (List PyVal))
    (hlen : ∀ r ∈ G, r.length = n + 1) :
    transposeRect ((List.range (n + 1)).map
        (fun i => G.map (fun r => r.getD i .vNone))) = G := by
  induction n generalizing G with
  | zero =>
      have h1 : List.range 1 = [0] := rfl
      rw [h1]
      simp only [List.map_cons, List.map_nil, transposeRect_singleton,
        List.map_map]
      conv_rhs => rw [← List.map_id G]
      apply List.map_congr_left
      intro r hr
      have := hlen r hr
      cases r with
      | nil => simp at this
      | cons x xs =>
          simp only [List.length_cons, Nat.add_right_cancel_iff] at this
          have : xs = [] := List.eq_nil_of_length_eq_zero this
          subst this
          simp [List.getD]
  | succ m ih =>
      rw [List.range_succ_eq_map]
      simp only [List.map_cons, List.map_map]
      have hshift :
          (List.range (m + 1)).map
              ((fun i => G.map (fun r => r.getD i .vNone)) ∘ Nat.succ) =
            (List.range (m + 1)).map
              (fun i => (G.map List.tail).map (fun r => r.getD i .vNone)) := by
        apply List.map_congr_left
        intro i _
        simp only [Function.comp, List.map_map]
        apply List.map_congr_left
        intro r _
        exact getD_succ_eq_tail_getD r i
      rw [hshift]
      have htails : ∀ r ∈ G.map List.tail, r.length = m + 1 := by
        intro r hr
        obtain ⟨s, hs, rfl⟩ := List.mem_map.mp hr
        have := hlen s hs
        cases s with
        | nil => simp at this
        | cons x xs => simpa using this
      have hTne : (List.range (m + 1)).map
          (fun i => (G.map List.tail).map (fun r => r.getD i .vNone)) ≠ [] := by
        simp [List.range_succ_eq_map]
      rw [transposeRect_cons _ _ hTne, ih (G.map List.tail) htails]
      rw [List.zipWith_map_left, List.zipWith_map_right, List.zipWith_same]
      conv_rhs => rw [← List.map_id G]
      apply List.map_congr_left
      intro r hr
      have := hlen r hr
      cases r with
      | nil => simp at this
      | cons x xs => simp [List.getD]

theorem zipWith_cons_range {α : Type} (d : α) (C : List α)
    (g : Nat → List α) :
    List.zipWith (fun c col => c :: col) C ((List.range C.length).map g) =
      (List.range C.length).map (fun i => C.getD i d :: g i) := by
  induction C generalizing g with
  | nil => simp
  | cons c cs ih =>
      simp only [List.length_cons, List.range_succ_eq_map, List.map_cons,
        List.zipWith_cons_cons, List.map_map]
      congr 1
      rw [ih (g ∘ Nat.succ)]
      apply List.map_congr_left
      intro i _
      simp [List.getD_cons_succ, Function.comp]

/-- For a rectangular frame with at least one column, the
transpose–reset-index–transpose serialization is exactly the column-label
row followed by the data rows. -/
theorem uploadValues_eq (df : Frame) (hrect : df.Rect)
    (hn : 0 < df.columns.length) :
    uploadValues df = df.columns :: df.rows := by
  obtain ⟨m, hm⟩ : ∃ m, df.columns.length = m + 1 :=
    ⟨df.columns.length - 1, by omega⟩
  unfold uploadValues colsOf
  rw [zipWith_cons_range PyVal.vNone]
  have hcols : (List.range df.columns.length).map
      (fun i => df.columns.getD i .vNone ::
        df.rows.map (fun r => r.getD i .vNone)) =
      (List.range df.columns.length).map
        (fun i => (df.columns :: df.rows).map (fun r => r.getD i .vNone)) := by
    simp
  rw [hcols, hm]
  exact transposeRect_cols m (df.columns :: df.rows)
    (by
      intro r hr
      rcases List.mem_cons.mp hr with h | h
      · subst h; exact hm
      · rw [hrect r h]; exact hm)

/-- `_fix_dtypes` is the cell-wise `fixCell` map; it keeps the column labels
and the frame's shape. -/
theorem fix_dtypes_eq (df : Frame) :
    fix_dtypes df = ⟨df.columns, df.rows.map (List.map fixCell)⟩ := by
  unfold fix_dtypes mapCells fixCell
  simp [List.map_map, Function.comp]

/-- Shared helper: the grid `upload` sends when the header row is kept. -/
theorem uploadGrid_false (df : Frame) (hrect : df.Rect)
    (hn : 0 < df.columns.length) :
    uploadGrid df false = df.columns :: df.rows.map (List.map fixCell) := by
  have hfix := fix_dtypes_eq df
  have hfrect : (fix_dtypes df).Rect := by
    rw [hfix]
    intro r hr
    obtain ⟨s, hs, rfl⟩ := List.mem_map.mp hr
    simpa using hrect s hs
  have hfn : 0 < (fix_dtypes df).columns.length := by rw [hfix]; exact hn
  show uploadValues (fix_dtypes df) = _
  rw [uploadValues_eq _ hfrect hfn, hfix]

/-- C8. `upload`'s serialization: after `_fix_dtypes` normalization (nulls to
`''`, date/time values to their string rendering, `Decimal` values to floats,
all other cells untouched), the grid sent is the column-label row followed by
one row per record in column order — and just the data rows when
`drop_columns` is set. -/
theorem upload_serialization (df : Frame) (hrect : df.Rect)
    (hn : 0 < df.columns.length) :
    uploadGrid df false = df.columns :: df.rows.map (List.map fixCell) ∧
    uploadGrid df true = df.rows.map (List.map fixCell) ∧
    fixCell .vNone = .vStr "" ∧
    (∀ s, fixCell (.vDate s) = .vStr s) ∧
    (∀ q, fixCell (.vDecimal q) = .vFloat q) ∧
    (∀ s, fixCell (.vStr s) = .vStr s) ∧
    (∀ n, fixCell (.vInt n) = .vInt n) ∧
    (∀ b, fixCell (.vBool b) = .vBool b) := by
  have hfix := fix_dtypes_eq df
  have hfrect : (fix_dtypes df).Rect := by
    rw [hfix]
    intro r hr
    obtain ⟨s, hs, rfl⟩ := List.mem_map.mp hr
    simpa using hrect s hs
  have hfn : 0 < (fix_dtypes df).columns.length := by rw [hfix]; exact hn
  refine ⟨uploadGrid_false df hrect hn, ?_, rfl, fun s => rfl, fun q => rfl,
    fun s => rfl, fun n => rfl, fun b => rfl⟩
  show (fix_dtypes df).rows = _
  rw [hfix]

/-- C8 witness: a two-column frame holding a null, a date, a `Decimal` and
plain scalars serializes to the header row followed by the normalized
records; with `drop_columns` only the records are sent. -/
theorem upload_serialization_example :
    uploadGrid ⟨[.vStr "A", .vStr "B"],
        [[.vNone, .vDate "2024-01-01"], [.vDecimal 2, .vInt 7]]⟩ false =
      [[.vStr "A", .vStr "B"], [.vStr "", .vStr "2024-01-01"],
       [.vFloat 2, .vInt 7]] ∧
    uploadGrid ⟨[.vStr "A", .vStr "B"],
        [[.vNone, .vDate "2024-01-01"], [.vDecimal 2, .vInt 7]]⟩ true =
      [[.vStr "", .vStr "2024-01-01"], [.vFloat 2, .vInt 7]] := by
  have h := upload_serialization
    ⟨[.vStr "A", .vStr "B"],
      [[.vNone, .vDate "2024-01-01"], [.vDecimal 2, .vInt 7]]⟩
    (by intro r hr; fin_cases hr <;> rfl) (by decide)
  refine ⟨?_, ?_⟩
  · rw [h.1]; rfl
  · rw [h.2.1]; rfl

/-! ## Round trip: write, then read back

The remote service is external to the repository; per the spec it stores the
written grid and a later `values().get` on the same range returns every
stored cell as a string (`valueInputOption='RAW'` stores values verbatim,
"All cell values arrive as strings"). -/

/-- Cells whose string rendering survives the writer's normalization:
strings, integers, floats, booleans and date/time values (the spec's
"numbers/booleans/dates become strings"). Null cells are written as the
empty string and `Decimal` cells as floats, so they are excluded. -/
def stringRepresentable : PyVal → Bool
  | .vNone => false
  | .vDecimal _ => false
  | _ => true

/-- Is a column label a plain string? -/
def isVStr : PyVal → Bool
  | .vStr _ => true
  | _ => false

/-- Modelled from the spec: the remote stores the uploaded grid and returns
each stored cell as its string coercion on a subsequent read. -/
def remoteRead (grid : List (List PyVal)) : List (List String) :=
  grid.map (List.map pyStr)

/-- Upload a frame (header row included, `valueInputOption='RAW'`), then
download the same spreadsheet/sheet/range with `header = 0`. -/
def roundTrip (df : Frame) : Except String Frame :=
  download (remoteRead (uploadGrid df false)) (some 0)

theorem pyStr_fixCell {v : PyVal} (h : stringRepresentable v = true) :
    pyStr (fixCell v) = pyStr v := by
  cases v <;> simp_all [stringRepresentable, fixCell, fillnaCell, dateCell,
    decimalCell, pyStr]

/-- Reading a rectangular string grid back with `header = 0`: the first row
becomes the column labels, the rest become string-cell data rows. -/
theorem download_zero_rect (c : List String) (rows : List (List String))
    (hlen : ∀ r ∈ rows, r.length = c.length) :
    download (c :: rows) (some 0) =
      .ok ⟨c.map .vStr, rows.map (List.map .vStr)⟩ := by
  have hemp : (c :: rows).isEmpty = false := rfl
  cases hrs : rows with
  | nil =>
      subst hrs
      simp [download]
  | cons r rs =>
      have hne : rows ≠ [] := by rw [hrs]; exact List.cons_ne_nil r rs
      have hw : maxRowLen rows = c.length := maxRowLen_const hne hlen
      have hdne : rows.isEmpty = false := by rw [hrs]; rfl
      rw [← hrs]
      have hpad : rows.map (padRow (maxRowLen rows)) =
          rows.map (List.map .vStr) := by
        apply List.map_congr_left
        intro x hx
        exact padRow_full (by rw [hlen x hx, hw])
      simp [download, hdne, hw, hpad]
      intro a ha
      exact padRow_full (hlen a ha)

/-- C1. Round trip: writing a Table whose column labels are strings and
whose cells are string-representable (header row included,
`valueInputOption='RAW'`), then reading the same range back with
`header = 0`, yields a Table with the same column names and the same cells
coerced to string. -/
theorem roundTrip_ok (df : Frame) (hrect : df.Rect)
    (hn : 0 < df.columns.length)
    (hcols : ∀ c ∈ df.columns, isVStr c = true)
    (hcells : ∀ r ∈ df.rows, ∀ v ∈ r, stringRepresentable v = true) :
    roundTrip df =
      .ok ⟨df.columns,
           df.rows.map (List.map (fun v => .vStr (pyStr v)))⟩ := by
  unfold roundTrip
  rw [uploadGrid_false df hrect hn]
  have hremote : remoteRead (df.columns :: df.rows.map (List.map fixCell)) =
      (df.columns.map pyStr) ::
        df.rows.map (fun r => r.map (fun v => pyStr (fixCell v))) := by
    simp [remoteRead, List.map_map, Function.comp]
  rw [hremote]
  have hlen : ∀ r ∈ df.rows.map (fun r => r.map (fun v => pyStr (fixCell v))),
      r.length = (df.columns.map pyStr).length := by
    intro r hr
    obtain ⟨s, hs, rfl⟩ := List.mem_map.mp hr
    simpa using hrect s hs
  rw [download_zero_rect _ _ hlen]
  congr 1
  congr 1
  · conv_rhs => rw [← List.map_id df.columns]
    rw [List.map_map]
    apply List.map_congr_left
    intro x hx
    have := hcols x hx
    cases x <;> simp_all [isVStr, pyStr]
  · rw [List.map_map]
    apply List.map_congr_left
    intro r hr
    rw [Function.comp, List.map_map]
    apply List.map_congr_left
    intro v hv
    rw [Function.comp]
    rw [pyStr_fixCell (hcells r hr v hv)]

/-- C1 witness: the spec's example scenario — columns `["A","B"]`, rows
`[[1,"x"],[2,"y"]]`, written with the header row and read back with
`header = 0`, comes back with the same column names and the string-coerced
cells `["1","x"]` and `["2","y"]`. -/
theorem roundTrip_example :
    roundTrip ⟨[.vStr "A", .vStr "B"],
        [[.vInt 1, .vStr "x"], [.vInt 2, .vStr "y"]]⟩ =
      .ok ⟨[.vStr "A", .vStr "B"],
           [[.vStr "1", .vStr "x"], [.vStr "2", .vStr "y"]]⟩ := by
  have h := roundTrip_ok
    ⟨[.vStr "A", .vStr "B"], [[.vInt 1, .vStr "x"], [.vInt 2, .vStr "y"]]⟩
    (by intro r hr; fin_cases hr <;> rfl) (by decide)
    (by decide) (by decide)
  rw [h]
  rfl

/-- C4 witness: grid `[["A"], ["1", "2", "3"]]` with `header = 0` — the lone
header name is extended with `"Unknown 0"` and `"Unknown 1"`, giving three
column labels, the widest data row's width. -/
theorem download_wider_rows_example :
    download [["A"], ["1", "2", "3"]] (some 0) =
      .ok ⟨[.vStr "A", .vStr "Unknown 0", .vStr "Unknown 1"],
           [[.vStr "1", .vStr "2", .vStr "3"]]⟩ := by
  have := (download_wider_rows [["A"], ["1", "2", "3"]] 0 (by decide)
    ⟨["1", "2", "3"], by decide, by decide⟩).1
  simpa [maxRowLen, unknownNames, padRow, List.range] using this

/-! ## Error handling on the write path

The current adapter's `upload` wraps its body in
`try … except socket.timeout as e: raise e` / `except Exception as e: raise e`
(`gsheet_pandas/adapter/connection.py`, lines 162-178): one `execute()` call,
both handlers re-raise immediately, neither logs, there is no sleep and no
second attempt.  The historical revision (`gsheet-pandas/connection.py`,
lines 102-126) instead prints and calls itself again on `socket.timeout`,
with no bound, and prints-and-returns on any other exception.  The asyncio
variant logs `logger.error(…)` and re-raises in `upload`
(`gsheet_pandas/asyncio/adapter/connection.py`, lines 241-295) — but its
`get_all_files_in_folder` (lines 145-180) re-raises with no log call.  The
remote is an oracle giving the outcome of each successive `execute()`
attempt. -/

/-- Outcome of one remote `execute()` attempt: success, a bare
`socket.timeout`, or any other exception. -/
inductive CallResult where
  | success
  | timeout
  | otherError
deriving DecidableEq, Repr

/-- The exception class the caller observes. -/
inductive UploadError where
  | timeout
  | other
deriving DecidableEq, Repr

/-- Current sync adapter `upload` error flow: the `try` body issues a single
`execute()`; both `except` clauses re-raise at once.  Returns the outcome,
the number of `execute()` attempts made, and the log messages written. -/
def uploadSyncFlow (oracle : Nat → CallResult) :
    Except UploadError Unit × Nat × List String :=
  match oracle 0 with
  | .success => (.ok (), 1, [])
  | .timeout => (.error .timeout, 1, [])
  | .otherError => (.error .other, 1, [])

/-- The policy the claim describes, stated from its words for comparison
with `uploadSyncFlow`: on a bare socket timeout sleep briefly and retry
exactly once, then surface the outcome; every other error immediately. -/
def uploadRetryOnceSpec (oracle : Nat → CallResult) :
    Except UploadError Unit × Nat × List String :=
  match oracle 0 with
  | .success => (.ok (), 1, [])
  | .otherError => (.error .other, 1, [])
  | .timeout =>
      match oracle 1 with
      | .success => (.ok (), 2, [])
      | .timeout => (.error .timeout, 2, [])
      | .otherError => (.error .other, 2, [])

/-- Historical revision `upload`: on `socket.timeout` it prints, sleeps and
calls itself again with no bound; on any other exception it prints and
returns normally; the first argument past the oracle is recursion fuel —
`none` means the recursion is still running after that many attempts.
Whenever it terminates it returns normally (`some` of the printed
messages); no exception ever reaches the caller. -/
def uploadV1Flow (oracle : Nat → CallResult) :
    Nat → Nat → Option (List String)
  | 0, _ => none
  | fuel + 1, i =>
      match oracle i with
      | .success => some []
      | .otherError => some ["pandas_to_sheet: Error: <exception>"]
      | .timeout =>
          (uploadV1Flow oracle fuel (i + 1)).map
            (fun logs => "pandas_to_sheet: Error: timeout" :: logs)

/-- Asyncio adapter `upload` error flow: a single attempt; any exception is
logged via `logger.error` and re-raised. -/
def uploadAsyncFlow (r : CallResult) :
    Except UploadError Unit × List String :=
  match r with
  | .success => (.ok (), [])
  | .timeout =>
      (.error .timeout, ["Error uploading to spreadsheet: <exception>"])
  | .otherError =>
      (.error .other, ["Error uploading to spreadsheet: <exception>"])

/-- Asyncio adapter `get_all_files_in_folder` error flow
(`gsheet_pandas/asyncio/adapter/connection.py`, lines 145-180):
`except Exception as e: raise e` — the caught exception is re-raised with
no logger call at all. -/
def listFilesAsyncFlow (r : CallResult) :
    Except UploadError Unit × List String :=
  match r with
  | .success => (.ok (), [])
  | .timeout => (.error .timeout, [])
  | .otherError => (.error .other, [])

/-- C2 counterexample: with the remote timing out on every attempt, the
current adapter's `upload` makes exactly one `execute()` attempt and
propagates the timeout at once — not the two attempts (the original call
plus one retry after a brief sleep) the claim describes. -/
theorem upload_retry_counterexample :
    uploadSyncFlow (fun _ => .timeout) = (.error .timeout, 1, []) ∧
    uploadRetryOnceSpec (fun _ => .timeout) = (.error .timeout, 2, []) ∧
    (1 : Nat) ≠ 2 := by
  exact ⟨rfl, rfl, by omega⟩

/-- C2 amended: the current adapter's `upload` issues exactly one remote
attempt whatever the remote does, surfacing a bare socket timeout — and any
other error — immediately with no retry; the historical revision's `upload`
instead retries without bound on a persistent timeout (it never returns,
at any fuel), so no error propagates there either. -/
theorem upload_no_retry (oracle : Nat → CallResult) :
    (uploadSyncFlow oracle).2.1 = 1 ∧
    (oracle 0 = .timeout → (uploadSyncFlow oracle).1 = .error .timeout) ∧
    (oracle 0 = .otherError → (uploadSyncFlow oracle).1 = .error .other) ∧
    (∀ fuel i, (∀ j, oracle j = .timeout) →
      uploadV1Flow oracle fuel i = none) := by
  refine ⟨?_, ?_, ?_, ?_⟩
  · cases h : oracle 0 <;> simp [uploadSyncFlow, h]
  · intro h; simp [uploadSyncFlow, h]
  · intro h; simp [uploadSyncFlow, h]
  · intro fuel
    induction fuel with
    | zero => intro i _; rfl
    | succ f ih =>
        intro i h
        simp [uploadV1Flow, h i, ih (i + 1) h]

/-- C2 amended witness: a persistently timing-out remote — one attempt, the
timeout surfaces, and the historical revision is still retrying after five
rounds of fuel. -/
theorem upload_no_retry_witness :
    (uploadSyncFlow (fun _ => CallResult.timeout)).2.1 = 1 ∧
    (uploadSyncFlow (fun _ => CallResult.timeout)).1 = .error .timeout ∧
    uploadV1Flow (fun _ => CallResult.timeout) 5 0 = none := by
  have h := upload_no_retry (fun _ => CallResult.timeout)
  exact ⟨h.1, h.2.1 rfl, h.2.2.2 5 0 (fun _ => rfl)⟩

/-! ## Sheet creation (`DriveConnection.create_sheet`) -/

/-- The spreadsheet's sheet inventory, as the remote keeps it. -/
structure SheetsState where
  titles : List String
  nextId : Int
deriving DecidableEq, Repr

/-- Reply to the `batchUpdate` addSheet request. -/
inductive SheetReply where
  | created (sheetId : Int)
  | httpError (status : Nat)
deriving DecidableEq, Repr

/-- Modelled from the spec: the remote rejects a duplicate sheet title with
an HTTP 400 error and otherwise creates the sheet under the next id. -/
def remoteAddSheet (st : SheetsState) (title : String) :
    SheetReply × SheetsState :=
  if title ∈ st.titles then (.httpError 400, st)
  else (.created st.nextId, ⟨st.titles ++ [title], st.nextId + 1⟩)

/-- `DriveConnection.create_sheet`'s handling of the reply
(`gsheet_pandas/adapter/connection.py`, lines 213-220):
`except HttpError as e: if e.status_code == 400: return None` — any other
status re-raises — else the new sheet's id is returned. -/
def create_sheet_result (reply : SheetReply) : Except Nat (Option Int) :=
  match reply with
  | .created i => .ok (some i)
  | .httpError s => if s = 400 then .ok none else .error s

/-- `create_sheet` against the modelled remote. -/
def create_sheet (st : SheetsState) (title : String) :
    Except Nat (Option Int) × SheetsState :=
  let (reply, st') := remoteAddSheet st title
  (create_sheet_result reply, st')

/-- C5. Creating a fresh sheet returns its integer id; an immediate second
call with the same name hits the remote's 400 and returns the `None`
sentinel instead of raising; every HTTP status other than 400 propagates. -/
theorem create_sheet_idempotent (st : SheetsState) (title : String)
    (hnew : title ∉ st.titles) :
    (create_sheet st title).1 = .ok (some st.nextId) ∧
    (create_sheet (create_sheet st title).2 title).1 = .ok none ∧
    (∀ s, s ≠ 400 → create_sheet_result (.httpError s) = .error s) ∧
    create_sheet_result (.httpError 400) = .ok none := by
  refine ⟨?_, ?_, ?_, rfl⟩
  · simp [create_sheet, remoteAddSheet, hnew, create_sheet_result]
  · simp [create_sheet, remoteAddSheet, hnew, create_sheet_result]
  · intro s hs
    simp [create_sheet_result, hs]

/-- C5 witness: a spreadsheet with one sheet `"test"`; creating `"test2"`
returns id `7`, creating it again returns the sentinel, and a 404 reply
would propagate. -/
theorem create_sheet_idempotent_witness :
    (create_sheet ⟨["test"], 7⟩ "test2").1 = .ok (some 7) ∧
    (create_sheet (create_sheet ⟨["test"], 7⟩ "test2").2 "test2").1 =
      .ok none ∧
    create_sheet_result (.httpError 404) = .error 404 := by
  have h := create_sheet_idempotent ⟨["test"], 7⟩ "test2" (by decide)
  exact ⟨h.1, h.2.1, h.2.2.1 404 (by omega)⟩

/-- C9 counterexample: two concrete violations of the propagation policy.
The current sync adapter's `upload` re-raises a caught timeout with an empty
log — the exception is not "logged with context and then re-raised" — and
the historical revision's `upload` swallows a non-timeout remote failure
outright: it prints and returns normally, so nothing reaches the caller. -/
theorem error_policy_counterexample :
    (uploadSyncFlow (fun _ => .timeout)).1 = .error .timeout ∧
    (uploadSyncFlow (fun _ => .timeout)).2.2 = [] ∧
    uploadV1Flow (fun _ => .otherError) 1 0 =
      some ["pandas_to_sheet: Error: <exception>"] := by
  exact ⟨rfl, rfl, rfl⟩

/-- C9 amended: caught exceptions are re-raised, never swallowed, in the
current adapters — but not always logged: the sync adapter's `upload` and
the asyncio adapter's `get_all_files_in_folder` re-raise the caught
exception with no log call, while the asyncio `upload` logs via
`logger.error` before re-raising; `create_sheet` converts exactly the
status-400 case to a `None` return; and the historical revision's `upload`
prints and swallows every non-timeout exception, returning normally. -/
theorem error_policy_amended (oracle : Nat → CallResult) (r : CallResult) :
    (uploadSyncFlow oracle).2.2 = [] ∧
    (oracle 0 ≠ .success → ∃ e, (uploadSyncFlow oracle).1 = .error e) ∧
    (r ≠ .success →
      (∃ e, (uploadAsyncFlow r).1 = .error e) ∧ (uploadAsyncFlow r).2 ≠ []) ∧
    (listFilesAsyncFlow r).2 = [] ∧
    (r ≠ .success → ∃ e, (listFilesAsyncFlow r).1 = .error e) ∧
    (∀ fuel i, oracle i = .otherError →
      uploadV1Flow oracle (fuel + 1) i =
        some ["pandas_to_sheet: Error: <exception>"]) ∧
    create_sheet_result (.httpError 400) = .ok none := by
  refine ⟨?_, ?_, ?_, ?_, ?_, ?_, rfl⟩
  · cases h : oracle 0 <;> simp [uploadSyncFlow, h]
  · intro h
    cases ho : oracle 0 <;> simp_all [uploadSyncFlow]
  · intro h
    cases r <;> simp_all [uploadAsyncFlow]
  · cases r <;> simp [listFilesAsyncFlow]
  · intro h
    cases r <;> simp_all [listFilesAsyncFlow]
  · intro fuel i h
    simp [uploadV1Flow, h]

/-- C9 amended witness: a failing remote — the async upload logs and
errors, the sync upload and the async file-listing error without logging,
the historical upload swallows, and a 400 on `create_sheet` becomes
`None`. -/
theorem error_policy_amended_witness :
    (uploadSyncFlow (fun _ => CallResult.otherError)).2.2 = [] ∧
    (uploadSyncFlow (fun _ => CallResult.otherError)).1 = .error .other ∧
    (uploadAsyncFlow CallResult.otherError).2 ≠ [] ∧
    (listFilesAsyncFlow CallResult.otherError).2 = [] ∧
    (listFilesAsyncFlow CallResult.otherError).1 = .error .other ∧
    uploadV1Flow (fun _ => CallResult.otherError) 1 0 =
      some ["pandas_to_sheet: Error: <exception>"] := by
  have h := error_policy_amended (fun _ => CallResult.otherError)
    CallResult.otherError
  refine ⟨h.1, ?_, (h.2.2.1 (by intro hc; cases hc)).2, h.2.2.2.1, ?_,
    h.2.2.2.2.2.1 0 0 rfl⟩
  · obtain ⟨e, he⟩ := h.2.1 (by intro hc; cases hc)
    cases e with
    | timeout => cases he
    | other => exact he
  · obtain ⟨e, he⟩ := h.2.2.2.2.1 (by intro hc; cases hc)
    cases e with
    | timeout => cases he
    | other => exact he

/-! ## `upload` does not mutate the caller's DataFrame

Python objects live in a heap; `df = _fix_dtypes(df)` rebinds the *local*
name only, and the pandas transforms the pipeline uses (`fillna`, `map`,
`.T`, `reset_index`, `.values`) each return a fresh object.  The heap is
modelled as a store of frames addressed by index; every transform allocates
a new frame and never writes to an existing slot. -/

/-- The pandas heap: frames addressed by allocation index. -/
structure PdStore where
  frames : List Frame
deriving DecidableEq, Repr

/-- Dereference an index (a missing index yields a dummy empty frame). -/
def PdStore.read (st : PdStore) (i : Nat) : Frame := st.frames.getD i ⟨[], []⟩

/-- Allocate a fresh frame, returning the new store and the new index. -/
def PdStore.alloc (st : PdStore) (f : Frame) : PdStore × Nat :=
  (⟨st.frames ++ [f]⟩, st.frames.length)

/-- Modelled from the spec: pandas `fillna` and `map` are cell-mapping
transforms that return fresh copies (the collaborator surface's "null-fill
and cell-mapping transforms"); each allocates a new frame and leaves every
existing frame in place. -/
def mapCellsSt (g : PyVal → PyVal) (st : PdStore) (i : Nat) : PdStore × Nat :=
  st.alloc (mapCells g (st.read i))

/-- `_fix_dtypes` under the store: each of the three statements rebinds the
local `df` to a freshly allocated frame. -/
def fix_dtypes_st (st : PdStore) (i : Nat) : PdStore × Nat :=
  let s1 := mapCellsSt fillnaCell st i
  let s2 := mapCellsSt dateCell s1.1 s1.2
  mapCellsSt decimalCell s2.1 s2.2

/-- `upload`'s frame pipeline under the store: `df = _fix_dtypes(df)`
rebinds the parameter locally; the grid is then serialized from the new
frame. -/
def upload_st (st : PdStore) (i : Nat) (dropColumns : Bool) :
    PdStore × List (List PyVal) :=
  let s1 := fix_dtypes_st st i
  let fixed := s1.1.read s1.2
  (s1.1, if dropColumns then fixed.rows else uploadValues fixed)

theorem getD_concat {α : Type} (l : List α) (a d : α) :
    (l ++ [a]).getD l.length d = a := by
  rw [List.getD_append_right _ _ _ _ (le_refl _)]
  simp

/-- The whole `fix_dtypes_st` pipeline spelled out: three fresh frames are
appended to the heap and the result index points at the last one. -/
theorem fix_dtypes_st_eq (st : PdStore) (i : Nat) :
    fix_dtypes_st st i =
      (⟨((st.frames ++ [mapCells fillnaCell (st.read i)]) ++
          [mapCells dateCell (mapCells fillnaCell (st.read i))]) ++
          [fix_dtypes (st.read i)]⟩,
       ((st.frames ++ [mapCells fillnaCell (st.read i)]) ++
          [mapCells dateCell (mapCells fillnaCell (st.read i))]).length) := by
  have hread1 :
      (⟨st.frames ++ [mapCells fillnaCell (st.read i)]⟩ : PdStore).read
        st.frames.length = mapCells fillnaCell (st.read i) :=
    getD_concat _ _ _
  have p2a : (mapCellsSt dateCell
      ⟨st.frames ++ [mapCells fillnaCell (st.read i)]⟩ st.frames.length).1 =
      ⟨(st.frames ++ [mapCells fillnaCell (st.read i)]) ++
        [mapCells dateCell (mapCells fillnaCell (st.read i))]⟩ := by
    show (⟨(st.frames ++ [mapCells fillnaCell (st.read i)]) ++
      [mapCells dateCell
        ((⟨st.frames ++ [mapCells fillnaCell (st.read i)]⟩ : PdStore).read
          st.frames.length)]⟩ : PdStore) = _
    rw [hread1]
  have hread2 :
      (⟨(st.frames ++ [mapCells fillnaCell (st.read i)]) ++
        [mapCells dateCell (mapCells fillnaCell (st.read i))]⟩ :
          PdStore).read
        ((st.frames ++ [mapCells fillnaCell (st.read i)]).length) =
      mapCells dateCell (mapCells fillnaCell (st.read i)) :=
    getD_concat _ _ _
  show mapCellsSt decimalCell
      (mapCellsSt dateCell (mapCellsSt fillnaCell st i).1
        (mapCellsSt fillnaCell st i).2).1
      (mapCellsSt dateCell (mapCellsSt fillnaCell st i).1
        (mapCellsSt fillnaCell st i).2).2 = _
  rw [show (mapCellsSt fillnaCell st i).1 =
      (⟨st.frames ++ [mapCells fillnaCell (st.read i)]⟩ : PdStore) from rfl,
    show (mapCellsSt fillnaCell st i).2 = st.frames.length from rfl,
    p2a,
    show (mapCellsSt dateCell
      ⟨st.frames ++ [mapCells fillnaCell (st.read i)]⟩ st.frames.length).2 =
      (st.frames ++ [mapCells fillnaCell (st.read i)]).length from rfl]
  show ((⟨(st.frames ++ [mapCells fillnaCell (st.read i)]) ++
      [mapCells dateCell (mapCells fillnaCell (st.read i))]⟩ :
        PdStore).alloc
      (mapCells decimalCell
        ((⟨(st.frames ++ [mapCells fillnaCell (st.read i)]) ++
          [mapCells dateCell (mapCells fillnaCell (st.read i))]⟩ :
            PdStore).read
          ((st.frames ++ [mapCells fillnaCell (st.read i)]).length)))) = _
  rw [hread2]
  rfl

/-- C10. `upload` leaves the caller's DataFrame untouched: after the whole
pipeline the original slot still holds the original frame, un-normalized —
and the grid sent is exactly the pure model's `uploadGrid`, built from the
fresh frames `_fix_dtypes` allocated. -/
theorem upload_no_mutation (st : PdStore) (i : Nat) (drop : Bool)
    (h : i < st.frames.length) :
    (upload_st st i drop).1.read i = st.read i ∧
    (upload_st st i drop).2 = uploadGrid (st.read i) drop := by
  have hu1 : (upload_st st i drop).1 = (fix_dtypes_st st i).1 := rfl
  have hu2 : (upload_st st i drop).2 =
      (if drop then
        ((fix_dtypes_st st i).1.read (fix_dtypes_st st i).2).rows
       else uploadValues
        ((fix_dtypes_st st i).1.read (fix_dtypes_st st i).2)) := rfl
  have hfds := fix_dtypes_st_eq st i
  constructor
  · rw [hu1, hfds]
    show (((st.frames ++ [mapCells fillnaCell (st.read i)]) ++
        [mapCells dateCell (mapCells fillnaCell (st.read i))]) ++
        [fix_dtypes (st.read i)]).getD i ⟨[], []⟩ = st.frames.getD i ⟨[], []⟩
    rw [List.getD_append _ _ _ _ (by simp; omega),
      List.getD_append _ _ _ _ (by simp; omega),
      List.getD_append _ _ _ _ h]
  · rw [hu2, hfds]
    have hr3 : (⟨((st.frames ++ [mapCells fillnaCell (st.read i)]) ++
        [mapCells dateCell (mapCells fillnaCell (st.read i))]) ++
        [fix_dtypes (st.read i)]⟩ : PdStore).read
        ((st.frames ++ [mapCells fillnaCell (st.read i)]) ++
          [mapCells dateCell (mapCells fillnaCell (st.read i))]).length =
        fix_dtypes (st.read i) := getD_concat _ _ _
    rw [hr3]
    rfl

/-- C10 witness: a one-frame store holding a frame with a null, a date and
a `Decimal`; after `upload`'s pipeline the slot still holds it verbatim,
and the grid sent is the normalized serialization. -/
theorem upload_no_mutation_witness :
    (upload_st ⟨[⟨[.vStr "A"], [[.vNone], [.vDecimal 3]]⟩]⟩ 0 false).1.read 0
      = ⟨[.vStr "A"], [[.vNone], [.vDecimal 3]]⟩ ∧
    (upload_st ⟨[⟨[.vStr "A"], [[.vNone], [.vDecimal 3]]⟩]⟩ 0 false).2 =
      uploadGrid ⟨[.vStr "A"], [[.vNone], [.vDecimal 3]]⟩ false := by
  have h := upload_no_mutation ⟨[⟨[.vStr "A"], [[.vNone], [.vDecimal 3]]⟩]⟩
    0 false (by decide)
  exact ⟨h.1, h.2⟩

end GSheet
